import Mathlib

/-!
Verification development for the auto-formact document formatting engine.

The Python sources (document_restructurer.py, corrector.py, validator.py) are
shallowly embedded below: paragraphs, runs and sections become Lean structures,
the regex patterns become explicit character-list matchers with the same
backtracking behaviour, and the docx library boundary is modelled with
`Except`-valued accessors so that the per-phase try/except containment of the
Python code can be stated.  Numeric values (margins in cm, font sizes in pt,
line spacings) are modelled as rationals; Python float formatting inside
messages is modelled with `toString` of the rational.
-/

namespace AutoFormact

/-! ## Python string helpers -/

/-- Python `\s` (whitespace) character class, ASCII approximation. -/
def isPySpace (c : Char) : Bool := c.isWhitespace

/-- Python `\w` (word) character class, ASCII approximation. -/
def isWordChar (c : Char) : Bool := c.isAlphanum || c = '_'

/-- The `[IVX]` character class of the chapter-heading regexes. -/
def isIVX (c : Char) : Bool := c = 'I' || c = 'V' || c = 'X'

def isDigitChar (c : Char) : Bool := c.isDigit

/-- `str.strip()` on a character list. -/
def stripChars (l : List Char) : List Char :=
  ((l.dropWhile isPySpace).reverse.dropWhile isPySpace).reverse

/-- Python `str.strip()`. -/
def pyStrip (s : String) : String := ⟨stripChars s.data⟩

/-- Python `str.upper()` (ASCII approximation). -/
def pyUpper (s : String) : String := ⟨s.data.map Char.toUpper⟩

/-- Python `needle in hay` substring test. -/
def pyIn (needle hay : String) : Bool :=
  (List.range (hay.data.length + 1)).any
    (fun i => needle.data.isPrefixOf (hay.data.drop i))

/-- `int(s)` for a nonempty digit string. -/
def natOfDigits (l : List Char) : Nat :=
  l.foldl (fun n c => 10 * n + (c.toNat - 48)) 0

/-- Python `s.startswith(pre)`. -/
def strStartsWith (s pre : String) : Bool := pre.data.isPrefixOf s.data

/-- Whether `suffix` ends `s` (used to state path-suffix properties). -/
def strEndsWith (s suffix : String) : Bool :=
  suffix.data.reverse.isPrefixOf s.data.reverse

/-- `str.replace` for a nonempty pattern: left-to-right, non-overlapping,
every occurrence.  The fuel is one more than the input length, so the
out-of-fuel arm is unreachable. -/
def replaceChars (pattern replacement : List Char) : Nat → List Char → List Char
  | _, [] => []
  | 0, l => l
  | fuel + 1, c :: rest =>
    if pattern.isPrefixOf (c :: rest) then
      replacement ++ replaceChars pattern replacement fuel ((c :: rest).drop pattern.length)
    else c :: replaceChars pattern replacement fuel rest

/-- Python `s.replace(pattern, replacement)` (the degenerate empty-pattern
case, which Python treats as insertion between characters, is never used by
the code and is modelled as the identity). -/
def pyReplace (s pattern replacement : String) : String :=
  if pattern.isEmpty then s
  else ⟨replaceChars pattern.data replacement.data (s.data.length + 1) s.data⟩

/-- Python `repr` of a list of ints, e.g. `[2, 1]`, as used in f-strings. -/
def pyIntListRepr (l : List Int) : String :=
  "[" ++ String.intercalate ", " (l.map toString) ++ "]"

/-! ## Roman numeral conversion (document_restructurer.py) -/

/-- The `roman_numerals` dict of `_roman_to_int`; `dict.get(char, 0)`. -/
def roman_numerals (c : Char) : Int :=
  if c = 'I' then 1 else if c = 'V' then 5 else if c = 'X' then 10 else 0

/-- `DocumentRestructurer._roman_to_int`: right-to-left scan with sign flips
when a smaller value precedes a larger already-accumulated one. -/
def _roman_to_int (roman : String) : Int :=
  (roman.data.reverse.foldl
    (fun (acc : Int × Int) c =>
      let value := roman_numerals c
      if value < acc.2 then (acc.1 - value, value) else (acc.1 + value, value))
    (0, 0)).1

/-- Python `str * int` (negative or zero count gives the empty string). -/
def pyRepeat (s : String) (k : Int) : String :=
  if k ≤ 0 then "" else String.join (List.replicate k.toNat s)

/-- The parallel `values` / `literals` lists of `_int_to_roman`. -/
def romanValues : List (Int × String) :=
  [(10, "X"), (9, "IX"), (5, "V"), (4, "IV"), (1, "I")]

/-- `DocumentRestructurer._int_to_roman`; Python `//` is floor division. -/
def _int_to_roman (num : Int) : String :=
  (romanValues.foldl
    (fun (acc : Int × String) (p : Int × String) =>
      let count := Int.fdiv acc.1 p.1
      if count ≠ 0 then (acc.1 - p.1 * count, acc.2 ++ pyRepeat p.2 count)
      else acc)
    (num, "")).2

/-! Spec-side definitions for claim C2: the standard written forms of the
subset numeral system over I/V/X, together with their values. -/

def romanUnits : List String :=
  ["", "I", "II", "III", "IV", "V", "VI", "VII", "VIII", "IX"]

def romanTens : List String := ["", "X", "XX", "XXX"]

/-- The canonical numeral of a value in 0–39: tens part then units part. -/
def canonicalRoman (v : Nat) : String :=
  romanTens.getD (v / 10) "" ++ romanUnits.getD (v % 10) ""

/-- All well-formed Roman numerals over I/V/X (values 1–39) with their values. -/
def wellFormedRomanPairs : List (String × Nat) :=
  (romanTens.enum.map (fun t =>
    romanUnits.enum.filterMap (fun u =>
      if t.1 * 10 + u.1 = 0 then none
      else some (t.2 ++ u.2, t.1 * 10 + u.1)))).flatten

/-! ## DocumentModel (the python-docx boundary)

Accessors that go through the docx library (`doc.paragraphs`, `doc.sections`,
`doc.tables`) are modelled as `Except`-valued so that the try/except
containment of each phase can be stated; an `.error e` value models the
accessor raising an exception whose `str` is `e`. -/

inductive Alignment
  | CENTER
  | LEFT
  | RIGHT
  | JUSTIFY
deriving DecidableEq, Repr

structure Font where
  name : Option String := none
  size : Option ℚ := none
deriving DecidableEq, Repr

structure Run where
  text : String
  font : Font := {}
  bold : Option Bool := none
  italic : Option Bool := none
deriving DecidableEq, Repr

structure ParagraphFormat where
  line_spacing : Option ℚ := none
deriving DecidableEq, Repr

structure Paragraph where
  runs : List Run := []
  alignment : Option Alignment := none
  paragraph_format : ParagraphFormat := {}
deriving DecidableEq, Repr

/-- `paragraph.text`: concatenation of the run texts. -/
def Paragraph.text (p : Paragraph) : String := String.join (p.runs.map Run.text)

/-- A docx section; margin lengths are held in centimeters. (`section` is a
Lean keyword, hence the name.) -/
structure DocSection where
  top_margin : ℚ
  bottom_margin : ℚ
  left_margin : ℚ
  right_margin : ℚ
deriving DecidableEq, Repr

structure CoreProperties where
  title : Option String := none
  author : Option String := none
deriving DecidableEq, Repr

deriving instance DecidableEq for Except

structure Doc where
  paragraphsE : Except String (List Paragraph)
  sectionsE : Except String (List DocSection) := .ok []
  tablesE : Except String Nat := .ok 0
  core_properties : CoreProperties := {}
deriving DecidableEq, Repr

/-- The single default section of a blank `Document()`: 1-inch (2.54 cm)
margins all around. -/
def blankDocSection : DocSection :=
  { top_margin := 127/50, bottom_margin := 127/50,
    left_margin := 127/50, right_margin := 127/50 }

/-- Python truthiness of an optional string (`None` and `""` are falsy). -/
def pyTruthyStr : Option String → Bool
  | none => false
  | some s => !s.isEmpty

/-- Python truthiness of an optional number (`None` and `0` are falsy). -/
def pyTruthyQ : Option ℚ → Bool
  | none => false
  | some q => q != 0

/-! ## The regex matchers -/

/-- `(.+)` at the end of an anchored pattern: needs a nonempty run of
non-newline characters; greedily captures up to the first newline. -/
def dotPlus (l : List Char) : Option (List Char) :=
  match l with
  | [] => none
  | c :: cs =>
    if c = '\n' then none
    else some (c :: cs.takeWhile (fun d => d ≠ '\n'))

/-- `\s+(.+)`: greedy whitespace run, backtracking one whitespace character at
a time when `.+` cannot match; returns the `.+` capture. -/
def matchSpacePlusDotPlus (l : List Char) : Option (List Char) :=
  let ws := l.takeWhile isPySpace
  let rest := l.dropWhile isPySpace
  if ws.isEmpty then none
  else
    (List.range ws.length).findSome?
      (fun i => dotPlus (ws.drop (ws.length - i) ++ rest))

/-- `re.match(r'BAB\s+([IVX]+)\s+(.+)', text)`, returning (group 1, group 2).
The greedy `[IVX]+` and the first `\s+` never backtrack productively because
their character classes are disjoint from what follows them. -/
def matchChapter (s : String) : Option (String × String) :=
  match s.data with
  | 'B' :: 'A' :: 'B' :: rest =>
    let ws1 := rest.takeWhile isPySpace
    let r1 := rest.dropWhile isPySpace
    if ws1.isEmpty then none
    else
      let ivx := r1.takeWhile isIVX
      let r2 := r1.dropWhile isIVX
      if ivx.isEmpty then none
      else
        match matchSpacePlusDotPlus r2 with
        | none => none
        | some title => some (⟨ivx⟩, ⟨title⟩)
  | _ => none

/-- `re.match(r'(\d+)\.(\d+)\s+(.+)', text)` of `_renumber_subsections`,
returning (group 1, group 2, group 3). -/
def matchSubsectionRenumber (s : String) : Option (List Char × List Char × String) :=
  let d1 := s.data.takeWhile isDigitChar
  let r1 := s.data.dropWhile isDigitChar
  if d1.isEmpty then none
  else
    match r1 with
    | '.' :: r2 =>
      let d2 := r2.takeWhile isDigitChar
      let r3 := r2.dropWhile isDigitChar
      if d2.isEmpty then none
      else
        match matchSpacePlusDotPlus r3 with
        | none => none
        | some title => some (d1, d2, ⟨title⟩)
    | _ => none

/-- `re.match(r'BAB [IVX]+ ', text)` of the heading-format check. -/
def matchBabFormat (s : String) : Bool :=
  match s.data with
  | 'B' :: 'A' :: 'B' :: ' ' :: rest =>
    let ivx := rest.takeWhile isIVX
    let r1 := rest.dropWhile isIVX
    !ivx.isEmpty && r1.head? == some ' '
  | _ => false

/-! ## RuleConfig

Strings such as `"4cm"` / `"12pt"` are stored already parsed, modelling
`float(x.replace('cm',''))` and `int(x.replace('pt',''))`. -/

structure Margins where
  top : ℚ
  bottom : ℚ
  left : ℚ
  right : ℚ
deriving DecidableEq, Repr

structure BodyFont where
  family : String
  size : Nat
deriving DecidableEq, Repr

structure LineSpacingCfg where
  body_text : ℚ
deriving DecidableEq, Repr

structure Typography where
  body_font : BodyFont
  line_spacing : LineSpacingCfg
deriving DecidableEq, Repr

structure PageSetup where
  margins : Margins
deriving DecidableEq, Repr

/-- The rule configuration; only the keys the engine reads are modelled
(`document_types.proposal.*` is flattened into the two last fields). -/
structure Config where
  page_setup : PageSetup
  typography : Typography
  required_sections : List String
  subsections : List (String × List String)
deriving DecidableEq, Repr

/-! ## Violations and corrections (dicts with optional keys) -/

structure Correction where
  type : String
  margin : Option String := none
  value : Option ℚ := none
  font_name : Option String := none
  size : Option ℚ := none
  spacing : Option ℚ := none
  alignment : Option String := none
  make_bold : Option Bool := none
  replace_dots_with_commas : Option Bool := none
  action : Option String := none
  current_order : Option (List String) := none
  correct_order : Option (List String) := none
deriving DecidableEq, Repr

structure Violation where
  type : String
  severity : Option String := none
  message : String
  location : Option String := none
  auto_correctable : Option Bool := none
  correction : Option Correction := none
  chapter : Option String := none
deriving DecidableEq, Repr

/-! ## Structure analysis (DocumentRestructurer.analyze_document_structure)

The `subsections` list that `_extract_subsections` attaches to each chapter is
omitted from `ChapterInfo`: it is never read again by the restructurer or the
validator. -/

structure ChapterInfo where
  paragraph_index : Nat
  roman_numeral : String
  chapter_number : Int
  title : String
  full_text : String
deriving DecidableEq, Repr

/-- The analysis dict.  `missing_sections`/`extra_sections` are `Option`s
because the exception-fallback dict lacks those keys (`none`), which matters
for the KeyError raised later in `_validate_document_order`. -/
structure Analysis where
  chapters : List ChapterInfo
  structure_issues : List Violation
  reordering_needed : Bool
  missing_sections : Option (List Violation)
  extra_sections : Option (List Violation)
deriving DecidableEq, Repr

/-- Stable insertion, modelling Python's stable `sorted`. -/
def insertSortedInt (x : Int) : List Int → List Int
  | [] => [x]
  | y :: ys => if x ≤ y then x :: y :: ys else y :: insertSortedInt x ys

/-- Python `sorted` on a list of ints. -/
def pySortedInts (l : List Int) : List Int := l.foldr insertSortedInt []

/-- Stable insertion by `chapter_number`. -/
def insertSortedChapter (x : ChapterInfo) : List ChapterInfo → List ChapterInfo
  | [] => [x]
  | y :: ys =>
    if x.chapter_number ≤ y.chapter_number then x :: y :: ys
    else y :: insertSortedChapter x ys

/-- `sorted(analysis['chapters'], key=lambda x: x['chapter_number'])` (stable). -/
def pySortedChapters (l : List ChapterInfo) : List ChapterInfo :=
  l.foldr insertSortedChapter []

/-- Chapter detection loop: one `ChapterInfo` per paragraph whose stripped,
upper-cased text matches the chapter regex. -/
def detectChapters (ps : List Paragraph) : List ChapterInfo :=
  ps.enum.filterMap (fun pi =>
    let text := pyUpper (pyStrip pi.2.text)
    match matchChapter text with
    | none => none
    | some g =>
      some { paragraph_index := pi.1
             roman_numeral := g.1
             chapter_number := _roman_to_int g.1
             title := pyStrip g.2
             full_text := text })

def chapterNumbersOf (chapters : List ChapterInfo) : List Int :=
  chapters.map (fun ch => ch.chapter_number)

/-- `len(chapters) > 1 and chapter_numbers != sorted(chapter_numbers)`. -/
def reorderingNeeded (chapters : List ChapterInfo) : Bool :=
  decide (chapters.length > 1) &&
    decide (chapterNumbersOf chapters ≠ pySortedInts (chapterNumbersOf chapters))

def chapterOrderIssue (nums sortedNums : List Int) : Violation :=
  { type := "chapter_order", severity := some "error",
    message := "Chapters are not in correct order: found " ++ pyIntListRepr nums ++
      ", should be " ++ pyIntListRepr sortedNums,
    auto_correctable := some true }

def missingChapterIssue (required : String) : Violation :=
  { type := "missing_chapter", severity := some "error",
    chapter := some required,
    message := "Missing required chapter: " ++ required,
    auto_correctable := some false }

/-- `required.replace('BAB I ', '').replace('BAB II ', '').replace('BAB III ', '')`. -/
def requiredClean (required : String) : String :=
  pyReplace (pyReplace (pyReplace required "BAB I " "") "BAB II " "") "BAB III " ""

/-- The missing-required-chapters loop of `analyze_document_structure`. -/
def missingSections (cfg : Config) (chapters : List ChapterInfo) : List Violation :=
  cfg.required_sections.filterMap (fun required =>
    if chapters.any (fun ch => pyIn (requiredClean required) ch.title) then none
    else some (missingChapterIssue required))

/-- The dict returned by the `except` clause of `analyze_document_structure`;
note it carries no `missing_sections` key. -/
def analysisFallback (e : String) : Analysis :=
  { chapters := []
    structure_issues := [{ type := "analysis_error", message := e }]
    reordering_needed := false
    missing_sections := none
    extra_sections := none }

/-- The analysis built when the paragraph scan succeeds. -/
def analyzeOk (cfg : Config) (chapters : List ChapterInfo) : Analysis :=
  { chapters := chapters
    structure_issues :=
      if reorderingNeeded chapters then
        [chapterOrderIssue (chapterNumbersOf chapters)
          (pySortedInts (chapterNumbersOf chapters))]
      else []
    reordering_needed := reorderingNeeded chapters
    missing_sections := some (missingSections cfg chapters)
    extra_sections := some [] }

/-- `DocumentRestructurer.analyze_document_structure`. -/
def analyze_document_structure (cfg : Config) (doc : Doc) : Analysis :=
  match doc.paragraphsE with
  | .error e => analysisFallback e
  | .ok ps => analyzeOk cfg (detectChapters ps)

/-! ## Restructuring (DocumentRestructurer.restructure_document) -/

/-- `_create_corrected_chapter_heading`: one bold, centered Times New Roman
12pt run reading `BAB <canonical-roman> <title>`. -/
def _create_corrected_chapter_heading (chapter_info : ChapterInfo) : Paragraph :=
  { runs := [{ text := "BAB " ++ _int_to_roman chapter_info.chapter_number ++ " " ++
                 chapter_info.title
               font := { name := some "Times New Roman", size := some 12 }
               bold := some true }]
    alignment := some Alignment.CENTER }

/-- The run-copy loop of `_copy_chapter_content`: each attribute is copied
only when its current value is truthy (`if run.font.name: ...` etc.), so
`bold=False`/`italic=False` and unset attributes stay unset. -/
def copyRun (run : Run) : Run :=
  { text := run.text
    font := { name := if pyTruthyStr run.font.name then run.font.name else none
              size := if pyTruthyQ run.font.size then run.font.size else none }
    bold := if run.bold = some true then some true else none
    italic := if run.italic = some true then some true else none }

/-- The end-index scan of `_copy_chapter_content`: fold over all chapters,
lowering `end_idx` to any heading index strictly between `start_idx` and the
current `end_idx`. -/
def findEndIdx (chapters : List ChapterInfo) (start_idx docLen : Nat) : Nat :=
  chapters.foldl
    (fun end_idx other =>
      if other.paragraph_index > start_idx ∧ other.paragraph_index < end_idx then
        other.paragraph_index
      else end_idx)
    docLen

/-- One step of `_renumber_subsections`: returns the (possibly rewritten)
paragraph and the updated running counter. -/
def renumberPara (chapter_number : Int) (counter : Nat) (para : Paragraph) :
    Paragraph × Nat :=
  let text := pyStrip para.text
  match matchSubsectionRenumber text with
  | none => (para, counter)
  | some g =>
    let current_chapter : Int := (natOfDigits g.1 : Int)
    if current_chapter ≠ chapter_number then
      ({ para with runs := [{ text := toString chapter_number ++ "." ++ toString counter ++
                                " " ++ g.2.2
                              font := { name := some "Times New Roman", size := some 12 } }] },
       counter + 1)
    else (para, counter)

/-- `_renumber_subsections(doc, chapter_number)`: scans ALL paragraphs of the
target document built so far, with the counter starting at 1. -/
def _renumber_subsections (paras : List Paragraph) (chapter_number : Int) :
    List Paragraph :=
  (paras.foldl
    (fun (acc : List Paragraph × Nat) para =>
      let pc := renumberPara chapter_number acc.2 para
      (acc.1 ++ [pc.1], pc.2))
    ([], 1)).1

/-- `_copy_chapter_content`: append the chapter's body span (empty paragraphs
dropped, runs copied attribute-wise) to the target, then renumber. -/
def _copy_chapter_content (source_paras : List Paragraph) (target : List Paragraph)
    (chapter_info : ChapterInfo) (analysis : Analysis) : List Paragraph :=
  let start_idx := chapter_info.paragraph_index
  let end_idx := findEndIdx analysis.chapters start_idx source_paras.length
  let copied := (List.range' (start_idx + 1) (end_idx - (start_idx + 1))).filterMap
    (fun i =>
      match source_paras.get? i with
      | none => none
      | some para =>
        if (pyStrip para.text).isEmpty then none
        else some { runs := para.runs.map copyRun
                    alignment := para.alignment })
  _renumber_subsections (target ++ copied) chapter_info.chapter_number

structure RestructureResult where
  success : Bool
  message : String
  changes_applied : List String
  restructured_file_path : Option String := none
  restructured_doc : Option Doc := none
  original_order : Option (List String) := none
  corrected_order : Option (List String) := none
deriving DecidableEq, Repr

/-- `os.path.basename` (POSIX). -/
def pyBasename (s : String) : String :=
  ⟨(s.data.reverse.takeWhile (fun c => c ≠ '/')).reverse⟩

/-- The root part of `os.path.splitext` (the leading-dot special case of
hidden files is not modelled). -/
def splitextRoot (s : String) : String :=
  let r := s.data.reverse.dropWhile (fun c => c ≠ '.')
  if r.isEmpty then s else ⟨(r.drop 1).reverse⟩

/-- Python `s.split('_', 1)`. -/
def pySplitUnderscore1 (s : String) : List String :=
  if s.data.any (fun c => c = '_') then
    [⟨s.data.takeWhile (fun c => c ≠ '_')⟩,
     ⟨(s.data.dropWhile (fun c => c ≠ '_')).drop 1⟩]
  else [s]

/-- The filename derivation of `_save_restructured_document`. -/
def _save_restructured_document_path (original_path : String) : String :=
  let base_name := pyBasename original_path
  let name_without_ext := splitextRoot base_name
  let parts := pySplitUnderscore1 name_without_ext
  if parts.length ≥ 2 then "temp/" ++ parts.headD "" ++ "_restructured.docx"
  else "temp/" ++ "restructured_" ++ base_name

/-- The early-return dict of `restructure_document` when no reordering is
needed. -/
def restructureNoop : RestructureResult :=
  { success := true
    message := "Document structure is already correct"
    changes_applied := []
    restructured_file_path := none }

/-- `DocumentRestructurer.restructure_document`.  The second `Document(path)`
load inside `analyze_document_structure` sees the same file, hence the same
`Doc` value.  When reordering is needed the paragraphs accessor necessarily
succeeded, so the `[]` default in the error arm is unreachable. -/
def restructure_document (cfg : Config) (doc : Doc) (document_path : String) :
    RestructureResult :=
  let analysis := analyze_document_structure cfg doc
  if !analysis.reordering_needed then restructureNoop
  else
    let sorted_chapters := pySortedChapters analysis.chapters
    let source_paras := match doc.paragraphsE with | .ok ps => ps | .error _ => []
    let step := sorted_chapters.foldl
      (fun (acc : List Paragraph × List String) chapter_info =>
        let withHeading := acc.1 ++ [_create_corrected_chapter_heading chapter_info]
        let changes := acc.2 ++ ["Reordered chapter: " ++ chapter_info.title]
        (_copy_chapter_content source_paras withHeading chapter_info analysis, changes))
      ([], [])
    { success := true
      message := "Document successfully restructured with " ++ toString step.2.length ++
        " changes"
      changes_applied := step.2
      restructured_file_path := some (_save_restructured_document_path document_path)
      restructured_doc := some { paragraphsE := .ok step.1
                                 sectionsE := .ok [blankDocSection]
                                 tablesE := .ok 0
                                 core_properties := doc.core_properties }
      original_order := some (analysis.chapters.map (fun ch => ch.title))
      corrected_order := some (sorted_chapters.map (fun ch => ch.title)) }

/-! ## Concrete fixtures -/

/-- A sample rule configuration (margins in cm, font size in pt). -/
def cfg0 : Config :=
  { page_setup := { margins := { top := 4, bottom := 3, left := 4, right := 3 } }
    typography := { body_font := { family := "Times New Roman", size := 12 }
                    line_spacing := { body_text := 2 } }
    required_sections := ["BAB I PENDAHULUAN", "BAB II TINJAUAN PUSTAKA",
                          "BAB III METODE PENELITIAN"]
    subsections := [("PENDAHULUAN", ["1.1 Latar Belakang"])] }

/-- A paragraph holding a single plain run. -/
def mkTextPara (s : String) : Paragraph := { runs := [{ text := s }] }

/-- A document whose chapters are already in ascending order. -/
def docInOrder : Doc :=
  { paragraphsE := .ok [mkTextPara "BAB I PENDAHULUAN",
                        mkTextPara "BAB II TINJAUAN PUSTAKA"] }

/-- A document with scrambled chapters (II before I), each chapter having one
correctly numbered subsection paragraph. -/
def doc3 : Doc :=
  { paragraphsE := .ok [mkTextPara "BAB II KAJIAN", mkTextPara "2.1 Teori",
                        mkTextPara "BAB I PENDAHULUAN", mkTextPara "1.1 Latar"] }

/-- The paragraph texts of a document (empty on an accessor failure). -/
def docParagraphTexts (doc : Doc) : List String :=
  match doc.paragraphsE with
  | .ok ps => ps.map Paragraph.text
  | .error _ => []

/-- The per-run font names of a document. -/
def docRunFontNames (doc : Doc) : List (List (Option String)) :=
  match doc.paragraphsE with
  | .ok ps => ps.map (fun p => p.runs.map (fun r => r.font.name))
  | .error _ => []

/-! ## Corrector (DocumentCorrector, corrector.py)

Each `_apply_*` helper returns the updated document together with its
`applied` and `failed` string lists; the `try/except` around each helper's
body is modelled by the `.error` arm of the relevant accessor. -/

/-- One `correction` item of the margin loop.  `Cm(None)` raising on a
missing value and margin names outside top/bottom/left/right falling through
silently follow the code (the latter is modelled; the former is not needed
because no modelled path builds such a request). -/
def applyMarginToSection (s : DocSection) (c : Correction) : DocSection × List String :=
  match c.margin, c.value with
  | some "top", some v => ({ s with top_margin := v },
      ["Set top margin to " ++ toString v ++ "cm"])
  | some "bottom", some v => ({ s with bottom_margin := v },
      ["Set bottom margin to " ++ toString v ++ "cm"])
  | some "left", some v => ({ s with left_margin := v },
      ["Set left margin to " ++ toString v ++ "cm"])
  | some "right", some v => ({ s with right_margin := v },
      ["Set right margin to " ++ toString v ++ "cm"])
  | _, _ => (s, [])

def applyMarginsToSection (s : DocSection) (mcs : List Correction) :
    DocSection × List String :=
  mcs.foldl (fun acc c =>
    let r := applyMarginToSection acc.1 c
    (r.1, acc.2 ++ r.2)) (s, [])

/-- `_apply_margin_corrections`: every requested margin is set on every
section. -/
def _apply_margin_corrections (doc : Doc) (margin_corrections : List Correction) :
    Doc × List String × List String :=
  match doc.sectionsE with
  | .error e => (doc, [], ["Failed to apply margin corrections: " ++ e])
  | .ok secs =>
    let rs := secs.map (fun s => applyMarginsToSection s margin_corrections)
    ({ doc with sectionsE := .ok (rs.map Prod.fst) }, (rs.map Prod.snd).flatten, [])

/-- The per-run body of `_apply_font_corrections`: rewrite only when the
current name is truthy AND differs from the expected family. -/
def fontFixRun (expected_font : String) (run : Run) : Run × List String :=
  if pyTruthyStr run.font.name && run.font.name != some expected_font then
    ({ run with font := { run.font with name := some expected_font } },
     ["Changed font from " ++ run.font.name.getD "" ++ " to " ++ expected_font])
  else (run, [])

/-- `_apply_font_corrections` (the grouped request list itself is never read;
the expected family comes from the config). -/
def _apply_font_corrections (cfg : Config) (doc : Doc) :
    Doc × List String × List String :=
  match doc.paragraphsE with
  | .error e => (doc, [], ["Failed to apply font corrections: " ++ e])
  | .ok ps =>
    let expected_font := cfg.typography.body_font.family
    ({ doc with paragraphsE := .ok (ps.map (fun p =>
        { p with runs := p.runs.map (fun r => (fontFixRun expected_font r).1) })) },
     (ps.map (fun p =>
        (p.runs.map (fun r => (fontFixRun expected_font r).2)).flatten)).flatten,
     [])

/-- The per-run body of `_apply_font_size_corrections`: rewrite only when the
current size is truthy AND its pt value differs from the expected size. -/
def fontSizeFixRun (expected_size : Nat) (run : Run) : Run × List String :=
  if pyTruthyQ run.font.size && run.font.size != some (expected_size : ℚ) then
    ({ run with font := { run.font with size := some (expected_size : ℚ) } },
     ["Changed font size from " ++ toString (run.font.size.getD 0) ++ "pt to " ++
       toString expected_size ++ "pt"])
  else (run, [])

/-- `_apply_font_size_corrections`. -/
def _apply_font_size_corrections (cfg : Config) (doc : Doc) :
    Doc × List String × List String :=
  match doc.paragraphsE with
  | .error e => (doc, [], ["Failed to apply font size corrections: " ++ e])
  | .ok ps =>
    let expected_size := cfg.typography.body_font.size
    ({ doc with paragraphsE := .ok (ps.map (fun p =>
        { p with runs := p.runs.map (fun r => (fontSizeFixRun expected_size r).1) })) },
     (ps.map (fun p =>
        (p.runs.map (fun r => (fontSizeFixRun expected_size r).2)).flatten)).flatten,
     [])

/-- The per-paragraph body of `_apply_line_spacing_corrections`. -/
def lineSpacingFixPara (expected_spacing : ℚ) (p : Paragraph) :
    Paragraph × List String :=
  if !(pyStrip p.text).isEmpty then
    if pyTruthyQ p.paragraph_format.line_spacing &&
        decide (|p.paragraph_format.line_spacing.getD 0 - expected_spacing| > 1/10) then
      ({ p with paragraph_format := { line_spacing := some expected_spacing } },
       ["Set line spacing to " ++ toString expected_spacing])
    else (p, [])
  else (p, [])

/-- `_apply_line_spacing_corrections`. -/
def _apply_line_spacing_corrections (cfg : Config) (doc : Doc) :
    Doc × List String × List String :=
  match doc.paragraphsE with
  | .error e => (doc, [], ["Failed to apply line spacing corrections: " ++ e])
  | .ok ps =>
    let expected_spacing := cfg.typography.line_spacing.body_text
    let rs := ps.map (lineSpacingFixPara expected_spacing)
    ({ doc with paragraphsE := .ok (rs.map Prod.fst) }, (rs.map Prod.snd).flatten, [])

/-- The per-paragraph body of `_apply_heading_alignment_corrections`: on a
`BAB `-prefixed paragraph force center alignment (if not already) and set
every non-bold run bold. -/
def headingAlignmentFixPara (p : Paragraph) : Paragraph × List String :=
  let text := pyUpper (pyStrip p.text)
  if strStartsWith text "BAB " then
    let alignFixed :=
      if p.alignment ≠ some Alignment.CENTER then
        ({ p with alignment := some Alignment.CENTER },
         ["Center-aligned chapter heading: " ++ text])
      else (p, [])
    let runsFixed := alignFixed.1.runs.map (fun r =>
      if r.bold ≠ some true then
        ({ r with bold := some true }, ["Made chapter heading bold: " ++ text])
      else (r, []))
    ({ alignFixed.1 with runs := runsFixed.map Prod.fst },
     alignFixed.2 ++ (runsFixed.map Prod.snd).flatten)
  else (p, [])

/-- `_apply_heading_alignment_corrections`. -/
def _apply_heading_alignment_corrections (doc : Doc) :
    Doc × List String × List String :=
  match doc.paragraphsE with
  | .error e => (doc, [], ["Failed to apply heading alignment corrections: " ++ e])
  | .ok ps =>
    let rs := ps.map headingAlignmentFixPara
    ({ doc with paragraphsE := .ok (rs.map Prod.fst) }, (rs.map Prod.snd).flatten, [])

/-- `re.sub(r'\b(\d+)\.(\d{1,3})\b(?!\d)', r'\1,\2', text)`, scanning left to
right.  At a word boundary opening a digit run, the pattern matches exactly
when the run is followed by a dot, then a run of 1–3 digits followed by
end-of-input or a non-word character (the greedy 3-to-1 backtracking of
`\d{1,3}` can only succeed with the full following digit run, because any
shorter capture is followed by a digit and fails both `\b` and `(?!\d)`).
The fuel argument is one more than the remaining input length, so the
out-of-fuel arm is unreachable. -/
def fixDecimalAux : Nat → Option Char → List Char → List Char
  | 0, _, l => l
  | _ + 1, _, [] => []
  | fuel + 1, prev, c :: rest =>
    let boundary := match prev with | none => true | some p => !isWordChar p
    if boundary && isDigitChar c then
      let r1 := rest.dropWhile isDigitChar
      match r1 with
      | '.' :: r2 =>
        let d2 := r2.takeWhile isDigitChar
        let r3 := r2.dropWhile isDigitChar
        if decide (1 ≤ d2.length) && decide (d2.length ≤ 3) &&
            (match r3.head? with | none => true | some x => !isWordChar x) then
          (c :: rest.takeWhile isDigitChar) ++ ',' :: d2 ++
            fixDecimalAux fuel (some (d2.getLastD '0')) r3
        else c :: fixDecimalAux fuel (some c) rest
      | _ => c :: fixDecimalAux fuel (some c) rest
    else c :: fixDecimalAux fuel (some c) rest

/-- `DocumentCorrector._fix_decimal_separators`. -/
def _fix_decimal_separators (text : String) : String :=
  ⟨fixDecimalAux (text.data.length + 1) none text.data⟩

/-- The per-paragraph body of `_apply_decimal_separator_corrections`: when the
substitution changes the text, `paragraph.clear()` plus a single fresh run. -/
def decimalFixPara (paragraph : Paragraph) : Paragraph × List String :=
  let corrected_text := _fix_decimal_separators paragraph.text
  if corrected_text ≠ paragraph.text then
    ({ paragraph with runs := [{ text := corrected_text }] },
     ["Fixed decimal separators in paragraph"])
  else (paragraph, [])

/-- `_apply_decimal_separator_corrections`. -/
def _apply_decimal_separator_corrections (doc : Doc) :
    Doc × List String × List String :=
  match doc.paragraphsE with
  | .error e => (doc, [], ["Failed to apply decimal separator corrections: " ++ e])
  | .ok ps =>
    let rs := ps.map decimalFixPara
    ({ doc with paragraphsE := .ok (rs.map Prod.fst) }, (rs.map Prod.snd).flatten, [])

/-- Python `repr` of a list of strings, e.g. a list of titles in an f-string. -/
def pyStrListRepr (l : List String) : String :=
  "[" ++ String.intercalate ", "
    (l.map (fun s => String.singleton (Char.ofNat 39) ++ s ++ String.singleton (Char.ofNat 39))) ++ "]"

/-- `_apply_document_restructuring`: runs the restructurer on the file at
`document_path` (the document as stored on disk, NOT the in-memory working
copy) and reports the swap target on success. -/
def _apply_document_restructuring (cfg : Config) (origDoc : Doc)
    (document_path : String) :
    List String × List String × Option (String × Doc) :=
  let result := restructure_document cfg origDoc document_path
  if result.success then
    (result.changes_applied ++
      ["Document restructured from order: " ++ pyStrListRepr (result.original_order.getD []) ++
        " to: " ++ pyStrListRepr (result.corrected_order.getD [])],
     [],
     match result.restructured_file_path, result.restructured_doc with
     | some p, some d => some (p, d)
     | _, _ => none)
  else
    ([], ["Document restructuring failed: " ++ result.message], none)

/-- The filename derivation of `_save_corrected_document`. -/
def _save_corrected_document_path (original_path : String) : String :=
  let base_name := pyBasename original_path
  let parts := pySplitUnderscore1 (splitextRoot base_name)
  if parts.length ≥ 2 then "temp/" ++ parts.headD "" ++ "_corrected.docx"
  else "temp/" ++ "corrected_" ++ base_name

/-- `'t' in corrections_by_type` for the grouped corrections. -/
def hasType (corrections : List Correction) (t : String) : Bool :=
  corrections.any (fun c => c.type == t)

structure ApplyCorrectionsResult where
  applied : List String
  failed : List String
  corrected_file_path : Option String
  saved_doc : Option Doc := none
deriving DecidableEq, Repr

/-- `DocumentCorrector.apply_corrections`.  The group dispatch order is the
fixed if-chain of the source; grouping preserves request order within a type.
The restructuring step re-reads the ORIGINAL `document_path` from storage, and
on success swaps both the working path and the in-memory document to the
restructured artifact (a reload), before the final save.  A load failure hits
the outer except (single system_error entry, no artifact); a successful final
save is modelled directly by `saved_doc`. -/
def apply_corrections (cfg : Config) (document_path : String)
    (load : Except String Doc) (corrections_to_apply : List Correction) :
    ApplyCorrectionsResult :=
  match load with
  | .error e =>
    { applied := [], failed := ["Failed to apply corrections: " ++ e],
      corrected_file_path := none }
  | .ok doc0 =>
    let s1 : Doc × List String × List String :=
      if hasType corrections_to_apply "margin" then
        _apply_margin_corrections doc0
          (corrections_to_apply.filter (fun c => c.type == "margin"))
      else (doc0, [], [])
    let s2 :=
      if hasType corrections_to_apply "font" then
        let r := _apply_font_corrections cfg s1.1
        (r.1, s1.2.1 ++ r.2.1, s1.2.2 ++ r.2.2)
      else s1
    let s3 :=
      if hasType corrections_to_apply "font_size" then
        let r := _apply_font_size_corrections cfg s2.1
        (r.1, s2.2.1 ++ r.2.1, s2.2.2 ++ r.2.2)
      else s2
    let s4 :=
      if hasType corrections_to_apply "line_spacing" then
        let r := _apply_line_spacing_corrections cfg s3.1
        (r.1, s3.2.1 ++ r.2.1, s3.2.2 ++ r.2.2)
      else s3
    let s5 :=
      if hasType corrections_to_apply "heading_alignment" then
        let r := _apply_heading_alignment_corrections s4.1
        (r.1, s4.2.1 ++ r.2.1, s4.2.2 ++ r.2.2)
      else s4
    let s6 :=
      if hasType corrections_to_apply "decimal_separator" then
        let r := _apply_decimal_separator_corrections s5.1
        (r.1, s5.2.1 ++ r.2.1, s5.2.2 ++ r.2.2)
      else s5
    let s7 :=
      if hasType corrections_to_apply "document_restructure" then
        let r := _apply_document_restructuring cfg doc0 document_path
        match r.2.2 with
        | some pd => (pd.2, pd.1, s6.2.1 ++ r.1, s6.2.2 ++ r.2.1)
        | none => (s6.1, document_path, s6.2.1 ++ r.1, s6.2.2 ++ r.2.1)
      else (s6.1, document_path, s6.2.1, s6.2.2)
    { applied := s7.2.2.1
      failed := s7.2.2.2
      corrected_file_path := some (_save_corrected_document_path s7.2.1)
      saved_doc := some s7.1 }

/-! ## Validator (DocumentValidator, validator.py)

Each `_validate_*` check wraps its body in try/except.  A body is modelled as
the pair of the violations accumulated before any exception together with an
optional exception message (`none` when the body completes); the wrapper
appends the check's single fallback violation when the body raised. -/

/-- A single-quote character, used where Python reprs/messages quote values. -/
def pySQ : String := String.singleton (Char.ofNat 39)

def runCheck (body : List Violation × Option String)
    (fallback : String → Violation) : List Violation :=
  match body.2 with
  | none => body.1
  | some e => body.1 ++ [fallback e]

def pageSetupFallback (e : String) : Violation :=
  { type := "page_setup_error", severity := some "error",
    message := "Error validating page setup: " ++ e, auto_correctable := some false }

def typographyFallback (e : String) : Violation :=
  { type := "typography_error", severity := some "error",
    message := "Error validating typography: " ++ e, auto_correctable := some false }

def structureFallback (e : String) : Violation :=
  { type := "structure_validation_error", severity := some "error",
    message := "Error validating structure: " ++ e, auto_correctable := some false }

def orderFallback (e : String) : Violation :=
  { type := "document_order_validation_error", severity := some "error",
    message := "Error validating document order: " ++ e, auto_correctable := some false }

def headingFallback (e : String) : Violation :=
  { type := "heading_validation_error", severity := some "error",
    message := "Error validating headings: " ++ e, auto_correctable := some false }

def tableFigureFallback (e : String) : Violation :=
  { type := "table_figure_validation_error", severity := some "error",
    message := "Error validating tables/figures: " ++ e, auto_correctable := some false }

def textFormattingFallback (e : String) : Violation :=
  { type := "text_formatting_error", severity := some "error",
    message := "Error validating text formatting: " ++ e, auto_correctable := some false }

/-- The four margin comparisons of `_validate_page_setup` for one section;
tolerance 0.2 cm. -/
def marginViolations (cfg : Config) (section_idx : Nat) (s : DocSection) :
    List Violation :=
  let em := cfg.page_setup.margins
  let tolerance : ℚ := 2/10
  let loc := some ("Section " ++ toString (section_idx + 1))
  (if |s.top_margin - em.top| > tolerance then
    [{ type := "margin_error", severity := some "error",
       message := "Top margin is " ++ toString s.top_margin ++ "cm but should be " ++
         toString em.top ++ "cm according to UNISMUH guidelines",
       location := loc, auto_correctable := some true,
       correction := some { type := "margin", margin := some "top", value := some em.top } }]
   else []) ++
  (if |s.bottom_margin - em.bottom| > tolerance then
    [{ type := "margin_error", severity := some "error",
       message := "Bottom margin is " ++ toString s.bottom_margin ++ "cm but should be " ++
         toString em.bottom ++ "cm according to UNISMUH guidelines",
       location := loc, auto_correctable := some true,
       correction := some { type := "margin", margin := some "bottom", value := some em.bottom } }]
   else []) ++
  (if |s.left_margin - em.left| > tolerance then
    [{ type := "margin_error", severity := some "error",
       message := "Left margin is " ++ toString s.left_margin ++ "cm but should be " ++
         toString em.left ++ "cm according to UNISMUH guidelines",
       location := loc, auto_correctable := some true,
       correction := some { type := "margin", margin := some "left", value := some em.left } }]
   else []) ++
  (if |s.right_margin - em.right| > tolerance then
    [{ type := "margin_error", severity := some "error",
       message := "Right margin is " ++ toString s.right_margin ++ "cm but should be " ++
         toString em.right ++ "cm according to UNISMUH guidelines",
       location := loc, auto_correctable := some true,
       correction := some { type := "margin", margin := some "right", value := some em.right } }]
   else [])

def _validate_page_setup_body (cfg : Config) (doc : Doc) :
    List Violation × Option String :=
  match doc.sectionsE with
  | .error e => ([], some e)
  | .ok secs =>
    ((secs.enum.map (fun si => marginViolations cfg si.1 si.2)).flatten, none)

def _validate_page_setup (cfg : Config) (doc : Doc) : List Violation :=
  runCheck (_validate_page_setup_body cfg doc) pageSetupFallback

/-- The per-run checks of `_validate_typography` (exact equality, mismatch
only when the attribute is set/truthy). -/
def typographyRunViolations (cfg : Config) (para_idx : Nat) (r : Run) :
    List Violation :=
  let expected_font := cfg.typography.body_font.family
  let expected_size := cfg.typography.body_font.size
  (if pyTruthyStr r.font.name && r.font.name != some expected_font then
    [{ type := "font_error", severity := some "error",
       message := r.font.name.getD "" ++ " font used instead of required " ++ expected_font,
       location := some ("Paragraph " ++ toString (para_idx + 1)),
       auto_correctable := some true,
       correction := some { type := "font", font_name := some expected_font } }]
   else []) ++
  (if pyTruthyQ r.font.size && r.font.size != some (expected_size : ℚ) then
    [{ type := "font_size_error", severity := some "error",
       message := "Font size " ++ toString (r.font.size.getD 0) ++ "pt used instead of required " ++
         toString expected_size ++ "pt",
       location := some ("Paragraph " ++ toString (para_idx + 1)),
       auto_correctable := some true,
       correction := some { type := "font_size", size := some (expected_size : ℚ) } }]
   else [])

def typographyParaViolations (cfg : Config) (para_idx : Nat) (p : Paragraph) :
    List Violation :=
  if (pyStrip p.text).isEmpty then []
  else
    (p.runs.map (typographyRunViolations cfg para_idx)).flatten ++
    (if pyTruthyQ p.paragraph_format.line_spacing then
      let current_spacing := p.paragraph_format.line_spacing.getD 0
      let expected_spacing := cfg.typography.line_spacing.body_text
      if |current_spacing - expected_spacing| > 1/10 then
        [{ type := "line_spacing_error", severity := some "error",
           message := toString current_spacing ++ " spacing used instead of required " ++
             toString expected_spacing ++ " line spacing",
           location := some ("Paragraph " ++ toString (para_idx + 1)),
           auto_correctable := some true,
           correction := some { type := "line_spacing", spacing := some expected_spacing } }]
      else []
     else [])

def _validate_typography_body (cfg : Config) (doc : Doc) :
    List Violation × Option String :=
  match doc.paragraphsE with
  | .error e => ([], some e)
  | .ok ps =>
    ((ps.enum.map (fun pi => typographyParaViolations cfg pi.1 pi.2)).flatten, none)

def _validate_typography (cfg : Config) (doc : Doc) : List Violation :=
  runCheck (_validate_typography_body cfg doc) typographyFallback

/-- The `BAB `-prefixed stripped upper-cased paragraph texts. -/
def chapterHeadingsOf (ps : List Paragraph) : List String :=
  ps.filterMap (fun p =>
    let text := pyUpper (pyStrip p.text)
    if strStartsWith text "BAB " then some text else none)

def _validate_structure_body (cfg : Config) (doc : Doc) :
    List Violation × Option String :=
  match doc.paragraphsE with
  | .error e => ([], some e)
  | .ok ps =>
    let chapter_headings := chapterHeadingsOf ps
    let requiredViols := cfg.required_sections.filterMap (fun required_section =>
      if chapter_headings.any (fun heading => pyIn (pyUpper required_section) heading) then
        none
      else
        some { type := "structure_error", severity := some "error",
               message := "Missing required section " ++ pySQ ++ required_section ++ pySQ,
               location := some "Document structure",
               auto_correctable := some false })
    let subsViols := cfg.subsections.map (fun cs =>
      if chapter_headings.any (fun heading => pyIn (pyUpper cs.1) heading) then
        cs.2.filterMap (fun subsection =>
          if ps.any (fun p => pyIn subsection p.text) then none
          else
            some { type := "subsection_missing", severity := some "warning",
                   message := "Missing subsection " ++ pySQ ++ subsection ++ pySQ ++
                     " in " ++ cs.1,
                   location := some cs.1,
                   auto_correctable := some false })
      else [])
    (requiredViols ++ subsViols.flatten, none)

def _validate_structure (cfg : Config) (doc : Doc) : List Violation :=
  runCheck (_validate_structure_body cfg doc) structureFallback

/-- Body of `_validate_document_order`: extend with the analysis issues, add
the reordering violation when needed, then read `analysis['missing_sections']`
— the access raises KeyError (whose `str` carries quotes) on the analysis
fallback dict, AFTER the earlier extends already populated the local list. -/
def _validate_document_order_body (cfg : Config) (doc : Doc) :
    List Violation × Option String :=
  let analysis := analyze_document_structure cfg doc
  let vs := analysis.structure_issues ++
    (if analysis.reordering_needed then
      [{ type := "document_reordering", severity := some "error",
         message := "Document chapters are not in the correct order and need to be restructured",
         location := some "Document structure",
         auto_correctable := some true,
         correction := some
           { type := "document_restructure", action := some "reorder_chapters",
             current_order := some (analysis.chapters.map (fun ch => ch.title)),
             correct_order := some ((pySortedChapters analysis.chapters).map (fun ch => ch.title)) } }]
     else [])
  match analysis.missing_sections with
  | some ms => (vs ++ ms, none)
  | none => (vs, some (pySQ ++ "missing_sections" ++ pySQ))

def _validate_document_order (cfg : Config) (doc : Doc) : List Violation :=
  runCheck (_validate_document_order_body cfg doc) orderFallback

def headingParaViolations (para_idx : Nat) (p : Paragraph) : List Violation :=
  let text := pyStrip p.text
  if strStartsWith (pyUpper text) "BAB " then
    (if p.alignment ≠ some Alignment.CENTER then
      [{ type := "heading_alignment", severity := some "error",
         message := "Chapter heading \"" ++ text ++ "\" should be center-aligned",
         location := some ("Paragraph " ++ toString (para_idx + 1)),
         auto_correctable := some true,
         correction := some { type := "heading_alignment", alignment := some "center" } }]
     else []) ++
    (match p.runs.head? with
     | some r0 =>
       if r0.bold ≠ some true then
         [{ type := "heading_bold", severity := some "error",
            message := "Chapter heading \"" ++ text ++ "\" should be bold",
            location := some ("Paragraph " ++ toString (para_idx + 1)),
            auto_correctable := some true,
            correction := some { type := "heading_bold", make_bold := some true } }]
       else []
     | none => []) ++
    (if !matchBabFormat (pyUpper text) then
      [{ type := "heading_format", severity := some "warning",
         message := "Chapter heading format should be \"BAB [ROMAN] [TITLE]\": \"" ++ text ++ "\"",
         location := some ("Paragraph " ++ toString (para_idx + 1)),
         auto_correctable := some false }]
     else [])
  else []

def _validate_headings_body (doc : Doc) : List Violation × Option String :=
  match doc.paragraphsE with
  | .error e => ([], some e)
  | .ok ps => ((ps.enum.map (fun pi => headingParaViolations pi.1 pi.2)).flatten, none)

def _validate_headings (doc : Doc) : List Violation :=
  runCheck (_validate_headings_body doc) headingFallback

def _validate_tables_figures_body (doc : Doc) : List Violation × Option String :=
  match doc.tablesE with
  | .error e => ([], some e)
  | .ok n =>
    ((List.range n).map (fun table_idx =>
      { type := "table_title_check", severity := some "suggestion",
        message := "Verify that Table " ++ toString (table_idx + 1) ++
          " has proper title format \"Tabel [NUMBER]. [Title]\"",
        location := some ("Table " ++ toString (table_idx + 1)),
        auto_correctable := some false }), none)

def _validate_tables_figures (doc : Doc) : List Violation :=
  runCheck (_validate_tables_figures_body doc) tableFigureFallback

/-- `re.search(r'\d+\.\d+', text)`: a match exists iff some digit is directly
followed by a dot and another digit. -/
def searchDecimal : List Char → Bool
  | c1 :: '.' :: c2 :: rest =>
    if isDigitChar c1 && isDigitChar c2 then true
    else searchDecimal ('.' :: c2 :: rest)
  | _ :: rest => searchDecimal rest
  | [] => false

def pyTake20 (s : String) : String := ⟨s.data.take 20⟩

/-- The per-paragraph checks of `_validate_text_formatting` (sentence split on
`". "`, leading-digit warning, dot-decimal warning). -/
def textFormattingParaViolations (para_idx : Nat) (text : String) : List Violation :=
  ((text.splitOn ". ").enum.filterMap (fun si =>
    let sentence := pyStrip si.2
    match sentence.data.head? with
    | some c =>
      if isDigitChar c then
        some { type := "number_start_sentence", severity := some "warning",
               message := "Number at sentence start should be written as words: \"" ++
                 pyTake20 sentence ++ "...\"",
               location := some ("Paragraph " ++ toString (para_idx + 1) ++
                 ", Sentence " ++ toString (si.1 + 1)),
               auto_correctable := some false }
      else none
    | none => none)) ++
  (if searchDecimal text.data then
    [{ type := "decimal_separator", severity := some "warning",
       message := "Use comma (,) as decimal separator, not period (.)",
       location := some ("Paragraph " ++ toString (para_idx + 1)),
       auto_correctable := some true,
       correction := some { type := "decimal_separator", replace_dots_with_commas := some true } }]
   else [])

def _validate_text_formatting_body (doc : Doc) : List Violation × Option String :=
  match doc.paragraphsE with
  | .error e => ([], some e)
  | .ok ps =>
    ((ps.enum.map (fun pi => textFormattingParaViolations pi.1 pi.2.text)).flatten, none)

def _validate_text_formatting (doc : Doc) : List Violation :=
  runCheck (_validate_text_formatting_body doc) textFormattingFallback

/-- The violation returned by `validate_document` when the initial document
load raises. -/
def systemErrorViolation (e : String) : Violation :=
  { type := "system_error", message := "Validation error: " ++ e,
    severity := some "error" }

/-- `DocumentValidator.validate_document`: the fixed pipeline of seven
contained checks, concatenated in source order. -/
def validate_document (cfg : Config) (load : Except String Doc) : List Violation :=
  match load with
  | .error e => [systemErrorViolation e]
  | .ok doc =>
    _validate_page_setup cfg doc ++
    _validate_typography cfg doc ++
    _validate_structure cfg doc ++
    _validate_document_order cfg doc ++
    _validate_headings doc ++
    _validate_tables_figures doc ++
    _validate_text_formatting doc

structure SeveritySummary where
  error : Nat
  warning : Nat
  suggestion : Nat
deriving DecidableEq, Repr

/-- `DocumentValidator.get_severity_summary`: `violation.get('severity',
'error')`, tallied only when the (defaulted) severity is one of the three
keys of the summary dict. -/
def get_severity_summary (violations : List Violation) : SeveritySummary :=
  violations.foldl
    (fun summary violation =>
      let severity := violation.severity.getD "error"
      if severity = "error" then { summary with error := summary.error + 1 }
      else if severity = "warning" then { summary with warning := summary.warning + 1 }
      else if severity = "suggestion" then { summary with suggestion := summary.suggestion + 1 }
      else summary)
    { error := 0, warning := 0, suggestion := 0 }

/-! ## Further fixtures and spec-side definitions -/

/-- The per-run font sizes of a document. -/
def docRunFontSizes (doc : Doc) : List (List (Option ℚ)) :=
  match doc.paragraphsE with
  | .ok ps => ps.map (fun p => p.runs.map (fun r => r.font.size))
  | .error _ => []

/-- A paragraph whose run carries an explicit non-standard font and size. -/
def pArial : Paragraph :=
  { runs := [{ text := "x", font := { name := some "Arial", size := some 10 } }] }

/-- A scrambled document (II before I) whose chapter-II body run uses Arial;
its single section has a 2 cm top margin. -/
def doc6 : Doc :=
  { paragraphsE := .ok [mkTextPara "BAB II KAJIAN",
                        { runs := [{ text := "Isi bab dua", font := { name := some "Arial" } }] },
                        mkTextPara "BAB I PENDAHULUAN",
                        mkTextPara "Isi bab satu"]
    sectionsE := .ok [{ top_margin := 2, bottom_margin := 3, left_margin := 4,
                        right_margin := 3 }] }

/-- A batch pairing a font group with a document_restructure group. -/
def corrections6 : List Correction :=
  [{ type := "font" }, { type := "document_restructure", action := some "reorder_chapters" }]

/-- A document every library accessor of which raises. -/
def badDoc : Doc :=
  { paragraphsE := .error "p-err", sectionsE := .error "s-err", tablesE := .error "t-err" }

/-- A violation with an unrecognized severity value. -/
def vCritical : Violation := { type := "x", severity := some "critical", message := "m" }

/-- A configuration whose required section title contains a non-leading
`BAB I ` occurrence. -/
def cfg9 : Config := { cfg0 with required_sections := ["STUDI BAB I KASUS"] }

/-- A document whose single chapter title is `STUDI KASUS`. -/
def doc9 : Doc := { paragraphsE := .ok [mkTextPara "BAB I STUDI KASUS"] }

/-- A document lacking the required chapter `BAB I PENDAHULUAN`. -/
def docMissing : Doc := { paragraphsE := .ok [mkTextPara "BAB II KAJIAN"] }

/-- The number of violations whose severity, defaulted to `"error"` when
missing, equals `k`. -/
def countSeverity (k : String) (vs : List Violation) : Nat :=
  vs.foldr (fun v n => if v.severity.getD "error" = k then n + 1 else n) 0

/-- Modelled from the spec wording of C9: strip a LEADING `BAB <numeral> `
prefix from a title (identity when there is no such prefix). -/
def specStripLeadingBab (s : String) : String :=
  match s.data with
  | 'B' :: 'A' :: 'B' :: ' ' :: rest =>
    let ivx := rest.takeWhile isIVX
    let r1 := rest.dropWhile isIVX
    if !ivx.isEmpty && r1.head? == some ' ' then ⟨r1.drop 1⟩ else s
  | _ => s

/-- C2: for every integer n with 1 ≤ n ≤ 39, `_roman_to_int (_int_to_roman n) = n`;
and every well-formed Roman numeral r over I, V, X denotes its value and
`_int_to_roman (_roman_to_int r)` is the canonical numeral of that value. -/
theorem roman_int_roundtrip :
    (∀ n : Nat, 1 ≤ n → n ≤ 39 →
      _roman_to_int (_int_to_roman (n : Int)) = (n : Int)) ∧
    (∀ p ∈ wellFormedRomanPairs,
      _roman_to_int p.1 = (p.2 : Int) ∧
      _int_to_roman (_roman_to_int p.1) = canonicalRoman p.2) := by
  constructor
  · have h : ∀ m ∈ List.range 39,
        _roman_to_int (_int_to_roman ((m + 1 : Nat) : Int)) = ((m + 1 : Nat) : Int) := by
      decide
    intro n h1 h39
    have hm : n - 1 ∈ List.range 39 := by
      simp only [List.mem_range]
      omega
    have h2 := h (n - 1) hm
    have hn : n - 1 + 1 = n := by omega
    rwa [hn] at h2
  · decide

/-- Witness for C2 at n = 4 and r = "XXXIX". -/
theorem roman_int_roundtrip_witness :
    (1 ≤ 4 ∧ 4 ≤ 39 ∧ _roman_to_int (_int_to_roman ((4 : Nat) : Int)) = ((4 : Nat) : Int)) ∧
    (("XXXIX", 39) ∈ wellFormedRomanPairs ∧
      _roman_to_int "XXXIX" = (39 : Int) ∧
      _int_to_roman (_roman_to_int "XXXIX") = canonicalRoman 39) :=
  ⟨⟨by decide, by decide, roman_int_roundtrip.1 4 (by decide) (by decide)⟩,
   ⟨by decide, roman_int_roundtrip.2 ("XXXIX", 39) (by decide)⟩⟩

/-! ## C1: restructuring an in-order document is a pure no-op -/

theorem pySortedInts_of_sorted {l : List Int} (h : List.Sorted (· ≤ ·) l) :
    pySortedInts l = l := by
  induction l with
  | nil => rfl
  | cons x xs ih =>
    rw [List.sorted_cons] at h
    have hxs := ih h.2
    show insertSortedInt x (pySortedInts xs) = x :: xs
    rw [hxs]
    cases xs with
    | nil => rfl
    | cons y ys =>
      have hxy : x ≤ y := h.1 y (List.mem_cons_self y ys)
      simp [insertSortedInt, hxy]

theorem reordering_false_of_sorted (cfg : Config) (doc : Doc)
    (h : List.Sorted (· ≤ ·)
      ((analyze_document_structure cfg doc).chapters.map (fun ch => ch.chapter_number))) :
    (analyze_document_structure cfg doc).reordering_needed = false := by
  unfold analyze_document_structure at h ⊢
  cases hps : doc.paragraphsE with
  | error e => rfl
  | ok ps =>
    rw [hps] at h
    have hsorted : List.Sorted (· ≤ ·) (chapterNumbersOf (detectChapters ps)) := h
    have hs := pySortedInts_of_sorted hsorted
    show reorderingNeeded (detectChapters ps) = false
    unfold reorderingNeeded
    rw [hs]
    simp

/-- C1: for every document whose detected chapters are already in ascending
`chapter_number` order (zero and one chapters included), `restructure_document`
is a pure no-op: success, no changes applied, no artifact written. -/
theorem restructure_noop_when_sorted (cfg : Config) (doc : Doc) (path : String)
    (h : List.Sorted (· ≤ ·)
      ((analyze_document_structure cfg doc).chapters.map (fun ch => ch.chapter_number))) :
    restructure_document cfg doc path =
      { success := true
        message := "Document structure is already correct"
        changes_applied := []
        restructured_file_path := none
        restructured_doc := none } := by
  have hr := reordering_false_of_sorted cfg doc h
  simp only [restructure_document, hr, Bool.not_false, if_true]
  rfl

/-- Witness for C1 on a two-chapter in-order document. -/
theorem restructure_noop_when_sorted_witness :
    List.Sorted (· ≤ ·)
      ((analyze_document_structure cfg0 docInOrder).chapters.map (fun ch => ch.chapter_number)) ∧
    restructure_document cfg0 docInOrder "abc_test.docx" =
      { success := true
        message := "Document structure is already correct"
        changes_applied := []
        restructured_file_path := none
        restructured_doc := none } :=
  ⟨by decide, restructure_noop_when_sorted cfg0 docInOrder "abc_test.docx" (by decide)⟩

/-! ## C3: the subsection-renumbering pass is NOT scoped to one chapter -/

/-- C3 is violated by the code: `_renumber_subsections` is called after each
chapter copy but iterates over ALL paragraphs of the accumulated document, so
during the second chapter's pass it rewrites the first chapter's already
correct "1.1 Latar" to "2.1 Latar".  This theorem evaluates the restructurer
at the failing input `doc3` (source order II, I): the output places subsection
"2.1 Latar" inside chapter I. -/
theorem renumber_clobbers_earlier_chapters :
    docParagraphTexts doc3 =
      ["BAB II KAJIAN", "2.1 Teori", "BAB I PENDAHULUAN", "1.1 Latar"] ∧
    ((restructure_document cfg0 doc3 "f1_x.docx").restructured_doc.map docParagraphTexts) =
      some ["BAB I PENDAHULUAN", "2.1 Latar", "BAB II KAJIAN", "2.1 Teori"] := by
  constructor
  · decide
  · decide

/-! ## C4: the decimal-separator substitution -/

theorem text_single_run (t : String) (p : Paragraph) :
    Paragraph.text { p with runs := [{ text := t }] } = t := rfl

theorem decimalFixPara_text (p : Paragraph) :
    (decimalFixPara p).1.text = _fix_decimal_separators p.text := by
  rcases eq_or_ne (_fix_decimal_separators p.text) p.text with he | hne
  · simp [decimalFixPara, he]
  · simp [decimalFixPara, hne, text_single_run]

theorem decimalFixParas_texts (ps : List Paragraph) :
    ((ps.map decimalFixPara).map Prod.fst).map Paragraph.text =
      ps.map (fun p => _fix_decimal_separators p.text) := by
  induction ps with
  | nil => rfl
  | cons p ps ih => simp only [List.map_cons, decimalFixPara_text, ih]

/-- C4 (amended): a `decimal_separator` correction rewrites every paragraph's
text by the bounded substitution `\b(\d+)\.(\d{1,3})\b(?!\d) -> \1,\2`;
`"nilai 50.5 meter"` becomes `"nilai 50,5 meter"` and `"total 1000.123456"`
is left unchanged, but `"versi 2.0.1"` becomes `"versi 2,0.1"` (its first two
components form a qualifying match; the lookahead only guards against a
following digit). -/
theorem decimal_separator_rewrite :
    (∀ (doc : Doc) (ps : List Paragraph), doc.paragraphsE = .ok ps →
      docParagraphTexts (_apply_decimal_separator_corrections doc).1 =
        ps.map (fun p => _fix_decimal_separators p.text)) ∧
    _fix_decimal_separators "nilai 50.5 meter" = "nilai 50,5 meter" ∧
    _fix_decimal_separators "total 1000.123456" = "total 1000.123456" ∧
    _fix_decimal_separators "versi 2.0.1" = "versi 2,0.1" := by
  refine ⟨?_, by decide, by decide, by decide⟩
  intro doc ps h
  simp only [_apply_decimal_separator_corrections, h, docParagraphTexts]
  exact decimalFixParas_texts ps

/-- Witness for C4 on a one-paragraph document. -/
theorem decimal_separator_rewrite_witness :
    (({ paragraphsE := .ok [mkTextPara "nilai 50.5 meter"] } : Doc).paragraphsE =
      .ok [mkTextPara "nilai 50.5 meter"]) ∧
    docParagraphTexts
        (_apply_decimal_separator_corrections
          { paragraphsE := .ok [mkTextPara "nilai 50.5 meter"] }).1 =
      [mkTextPara "nilai 50.5 meter"].map (fun p => _fix_decimal_separators p.text) :=
  ⟨rfl, decimal_separator_rewrite.1 _ _ rfl⟩

/-- C4 counterexample: the claim says `"versi 2.0.1"` is left unchanged, but
applying the correction to a paragraph holding it produces `"versi 2,0.1"`. -/
theorem decimal_separator_changes_version_string :
    docParagraphTexts
        (_apply_decimal_separator_corrections
          { paragraphsE := .ok [mkTextPara "versi 2.0.1"] }).1 = ["versi 2,0.1"] ∧
    ("versi 2,0.1" : String) ≠ "versi 2.0.1" := by
  exact ⟨by decide, by decide⟩

/-! ## C5: font / font-size corrections are mismatch-only, not blanket -/

theorem fontFixRun_name (e : String) (r : Run) :
    (fontFixRun e r).1.font.name =
      if pyTruthyStr r.font.name && r.font.name != some e then some e
      else r.font.name := by
  unfold fontFixRun
  cases h : pyTruthyStr r.font.name && r.font.name != some e <;> simp [h]

theorem fontSizeFixRun_size (n : Nat) (r : Run) :
    (fontSizeFixRun n r).1.font.size =
      if pyTruthyQ r.font.size && r.font.size != some (n : ℚ) then some (n : ℚ)
      else r.font.size := by
  unfold fontSizeFixRun
  cases h : pyTruthyQ r.font.size && r.font.size != some (n : ℚ) <;> simp [h]

theorem runs_font_names (e : String) (rs : List Run) :
    (rs.map (fun r => (fontFixRun e r).1)).map (fun r => r.font.name) =
      rs.map (fun r =>
        if pyTruthyStr r.font.name && r.font.name != some e then some e
        else r.font.name) := by
  induction rs with
  | nil => rfl
  | cons r rs ih => simp only [List.map_cons, ih, fontFixRun_name]

theorem runs_font_sizes (n : Nat) (rs : List Run) :
    (rs.map (fun r => (fontSizeFixRun n r).1)).map (fun r => r.font.size) =
      rs.map (fun r =>
        if pyTruthyQ r.font.size && r.font.size != some (n : ℚ) then some (n : ℚ)
        else r.font.size) := by
  induction rs with
  | nil => rfl
  | cons r rs ih => simp only [List.map_cons, ih, fontSizeFixRun_size]

/-- C5 (amended): a font (resp. font_size) correction group rewrites exactly
the runs whose font name (resp. size) is SET (truthy) and differs from the
configured target; runs with no explicit name/size, and runs already at the
target, are left untouched — the corrector mirrors the validator's
mismatch-only scope rather than performing a blanket rewrite. -/
theorem font_corrections_mismatch_only :
    (∀ (cfg : Config) (doc : Doc) (ps : List Paragraph), doc.paragraphsE = .ok ps →
      docRunFontNames (_apply_font_corrections cfg doc).1 =
        ps.map (fun p => p.runs.map (fun r =>
          if pyTruthyStr r.font.name && r.font.name != some cfg.typography.body_font.family
          then some cfg.typography.body_font.family else r.font.name))) ∧
    (∀ (cfg : Config) (doc : Doc) (ps : List Paragraph), doc.paragraphsE = .ok ps →
      docRunFontSizes (_apply_font_size_corrections cfg doc).1 =
        ps.map (fun p => p.runs.map (fun r =>
          if pyTruthyQ r.font.size && r.font.size != some (cfg.typography.body_font.size : ℚ)
          then some (cfg.typography.body_font.size : ℚ) else r.font.size))) := by
  have hn : ∀ (e : String) (ps : List Paragraph),
      (ps.map (fun p =>
          ({ p with runs := p.runs.map (fun r => (fontFixRun e r).1) } : Paragraph))).map
        (fun p => p.runs.map (fun r => r.font.name)) =
      ps.map (fun p => p.runs.map (fun r =>
        if pyTruthyStr r.font.name && r.font.name != some e then some e
        else r.font.name)) := by
    intro e ps
    induction ps with
    | nil => rfl
    | cons p ps ih =>
      simp only [List.map_cons, ih]
      congr 1
      exact runs_font_names e p.runs
  have hs : ∀ (n : Nat) (ps : List Paragraph),
      (ps.map (fun p =>
          ({ p with runs := p.runs.map (fun r => (fontSizeFixRun n r).1) } : Paragraph))).map
        (fun p => p.runs.map (fun r => r.font.size)) =
      ps.map (fun p => p.runs.map (fun r =>
        if pyTruthyQ r.font.size && r.font.size != some (n : ℚ) then some (n : ℚ)
        else r.font.size)) := by
    intro n ps
    induction ps with
    | nil => rfl
    | cons p ps ih =>
      simp only [List.map_cons, ih]
      congr 1
      exact runs_font_sizes n p.runs
  constructor
  · intro cfg doc ps h
    simp only [_apply_font_corrections, h, docRunFontNames]
    exact hn cfg.typography.body_font.family ps
  · intro cfg doc ps h
    simp only [_apply_font_size_corrections, h, docRunFontSizes]
    exact hs cfg.typography.body_font.size ps

/-- Witness for C5 on a document with one Arial 10pt run. -/
theorem font_corrections_mismatch_only_witness :
    (({ paragraphsE := .ok [pArial] } : Doc).paragraphsE = .ok [pArial]) ∧
    docRunFontNames (_apply_font_corrections cfg0 { paragraphsE := .ok [pArial] }).1 =
      [[some "Times New Roman"]] ∧
    docRunFontSizes (_apply_font_size_corrections cfg0 { paragraphsE := .ok [pArial] }).1 =
      [[some 12]] := by
  refine ⟨rfl, ?_, ?_⟩
  · rw [font_corrections_mismatch_only.1 cfg0 _ [pArial] rfl]
    decide
  · rw [font_corrections_mismatch_only.2 cfg0 _ [pArial] rfl]
    decide

/-- C5 counterexample: a run with no explicit font name keeps `none` after a
font correction group — its family is NOT rewritten to the configured target,
so the rewrite is not unconditional over every run. -/
theorem font_corrections_skip_unset_runs :
    (_apply_font_corrections cfg0 { paragraphsE := .ok [mkTextPara "teks"] }).1.paragraphsE =
      .ok [mkTextPara "teks"] ∧
    (mkTextPara "teks").runs.map (fun r => r.font.name) = [none] ∧
    (none : Option String) ≠ some cfg0.typography.body_font.family := by
  exact ⟨by decide, by decide, by decide⟩

/-! ## C6: a restructure group discards the other groups' in-memory edits -/

/-- C6 is violated by the code: `apply_corrections` applies the font group to
the in-memory document, then restructures from the ON-DISK original and
reloads that artifact, discarding the font group's edits.  At `doc6` (chapter
II body run in Arial) with a font + document_restructure batch, `applied`
reports the font change and the restructuring succeeds, yet the saved
artifact still contains the Arial run — whereas a font-only batch saves the
run as Times New Roman. -/
theorem restructure_reload_discards_font_fixes :
    ("Changed font from Arial to Times New Roman" ∈
      (apply_corrections cfg0 "th1_doc.docx" (.ok doc6) corrections6).applied) ∧
    (apply_corrections cfg0 "th1_doc.docx" (.ok doc6) corrections6).failed = [] ∧
    ((apply_corrections cfg0 "th1_doc.docx" (.ok doc6) corrections6).saved_doc.map
        docRunFontNames) =
      some [[some "Times New Roman"], [none], [some "Times New Roman"], [some "Arial"]] ∧
    ((apply_corrections cfg0 "th1_doc.docx" (.ok doc6) [{ type := "font" }]).saved_doc.map
        docRunFontNames) =
      some [[none], [some "Times New Roman"], [none], [none]] := by
  exact ⟨by decide, by decide, by decide, by decide⟩

/-! ## C7: per-check exception containment in the validator pipeline -/

theorem runCheck_raise (body : List Violation × Option String)
    (fallback : String → Violation) (vs : List Violation) (e : String)
    (h : body = (vs, some e)) :
    runCheck body fallback = vs ++ [fallback e] := by
  simp only [runCheck, h]

/-- C7: the validator pipeline is the concatenation of its seven independent
checks, and for each check an exception raised in its body contributes the
violations accumulated before the raise plus exactly one error-severity
fallback violation scoped to that check — the other checks' outputs are
untouched and `validate_document` still returns the combined list. -/
theorem validator_check_containment (cfg : Config) (doc : Doc) :
    (validate_document cfg (.ok doc) =
      _validate_page_setup cfg doc ++ _validate_typography cfg doc ++
      _validate_structure cfg doc ++ _validate_document_order cfg doc ++
      _validate_headings doc ++ _validate_tables_figures doc ++
      _validate_text_formatting doc) ∧
    (∀ vs e, _validate_page_setup_body cfg doc = (vs, some e) →
      _validate_page_setup cfg doc = vs ++ [pageSetupFallback e] ∧
      (pageSetupFallback e).severity = some "error") ∧
    (∀ vs e, _validate_typography_body cfg doc = (vs, some e) →
      _validate_typography cfg doc = vs ++ [typographyFallback e] ∧
      (typographyFallback e).severity = some "error") ∧
    (∀ vs e, _validate_structure_body cfg doc = (vs, some e) →
      _validate_structure cfg doc = vs ++ [structureFallback e] ∧
      (structureFallback e).severity = some "error") ∧
    (∀ vs e, _validate_document_order_body cfg doc = (vs, some e) →
      _validate_document_order cfg doc = vs ++ [orderFallback e] ∧
      (orderFallback e).severity = some "error") ∧
    (∀ vs e, _validate_headings_body doc = (vs, some e) →
      _validate_headings doc = vs ++ [headingFallback e] ∧
      (headingFallback e).severity = some "error") ∧
    (∀ vs e, _validate_tables_figures_body doc = (vs, some e) →
      _validate_tables_figures doc = vs ++ [tableFigureFallback e] ∧
      (tableFigureFallback e).severity = some "error") ∧
    (∀ vs e, _validate_text_formatting_body doc = (vs, some e) →
      _validate_text_formatting doc = vs ++ [textFormattingFallback e] ∧
      (textFormattingFallback e).severity = some "error") := by
  refine ⟨rfl, ?_, ?_, ?_, ?_, ?_, ?_, ?_⟩
  all_goals
    intro vs e h
    exact ⟨runCheck_raise _ _ vs e h, rfl⟩

/-- Witness for C7 on `badDoc`, whose accessors all raise: the page-setup
body raises the sections error, and the order body — whose internal analysis
already degraded to the fallback dict — raises the `missing_sections`
KeyError after having accumulated the analysis_error issue. -/
theorem validator_check_containment_witness :
    (_validate_page_setup_body cfg0 badDoc = ([], some "s-err")) ∧
    _validate_page_setup cfg0 badDoc = [] ++ [pageSetupFallback "s-err"] ∧
    (_validate_document_order_body cfg0 badDoc =
      ([{ type := "analysis_error", message := "p-err" }],
        some (pySQ ++ "missing_sections" ++ pySQ))) ∧
    _validate_document_order cfg0 badDoc =
      [{ type := "analysis_error", message := "p-err" }] ++
        [orderFallback (pySQ ++ "missing_sections" ++ pySQ)] := by
  refine ⟨by decide, ?_, by decide, ?_⟩
  · exact ((validator_check_containment cfg0 badDoc).2.1 [] "s-err" (by decide)).1
  · exact ((validator_check_containment cfg0 badDoc).2.2.2.2.1 _ _ (by decide)).1

/-! ## C8: the severity summary -/

theorem severitySummary_foldl (vs : List Violation) (s : SeveritySummary) :
    vs.foldl
      (fun summary violation =>
        let severity := violation.severity.getD "error"
        if severity = "error" then { summary with error := summary.error + 1 }
        else if severity = "warning" then { summary with warning := summary.warning + 1 }
        else if severity = "suggestion" then { summary with suggestion := summary.suggestion + 1 }
        else summary) s =
    { error := s.error + countSeverity "error" vs
      warning := s.warning + countSeverity "warning" vs
      suggestion := s.suggestion + countSeverity "suggestion" vs } := by
  induction vs generalizing s with
  | nil => simp [countSeverity]
  | cons v vs ih =>
    have hc : ∀ k, countSeverity k (v :: vs) =
        if v.severity.getD "error" = k then countSeverity k vs + 1
        else countSeverity k vs := fun k => rfl
    simp only [List.foldl_cons, hc]
    by_cases h1 : v.severity.getD "error" = "error"
    · rw [h1]
      simp [ih, SeveritySummary.mk.injEq]
      all_goals omega
    · by_cases h2 : v.severity.getD "error" = "warning"
      · rw [h2]
        simp [ih, SeveritySummary.mk.injEq]
        all_goals omega
      · by_cases h3 : v.severity.getD "error" = "suggestion"
        · rw [h3]
          simp [ih, SeveritySummary.mk.injEq]
          all_goals omega
        · simp [ih, h1, h2, h3]

/-- C8 (amended): over the empty list the summary is all zeros; a violation
with a MISSING severity is tallied as an error (the `'error'` default of
`.get`), but a violation with an unrecognized severity value is skipped
entirely, so each count equals the number of violations whose defaulted
severity equals its key and the three counts sum to the number of violations
with a recognized (defaulted) severity — not necessarily to the length of the
list. -/
theorem severity_summary_characterization :
    get_severity_summary [] = { error := 0, warning := 0, suggestion := 0 } ∧
    (∀ vs : List Violation,
      get_severity_summary vs =
        { error := countSeverity "error" vs
          warning := countSeverity "warning" vs
          suggestion := countSeverity "suggestion" vs }) := by
  refine ⟨rfl, ?_⟩
  intro vs
  have h := severitySummary_foldl vs { error := 0, warning := 0, suggestion := 0 }
  simpa [get_severity_summary] using h

/-- C8 counterexample: a violation whose severity is the unrecognized value
`"critical"` is not tallied at all — in particular it is not counted as an
error, and the three counts sum to 0, not to the list length 1. -/
theorem severity_summary_unknown_skipped :
    get_severity_summary [vCritical] = { error := 0, warning := 0, suggestion := 0 } ∧
    (get_severity_summary [vCritical]).error + (get_severity_summary [vCritical]).warning +
        (get_severity_summary [vCritical]).suggestion ≠ [vCritical].length := by
  exact ⟨by decide, by decide⟩

/-! ## C9: missing-section detection and surfacing -/

theorem order_check_mem (cfg : Config) (doc : Doc) (l : List Violation) (v : Violation)
    (h : (analyze_document_structure cfg doc).missing_sections = some l)
    (hv : v ∈ l) : v ∈ _validate_document_order cfg doc := by
  unfold _validate_document_order runCheck _validate_document_order_body
  simp only [h]
  exact List.mem_append_right _ hv

/-- C9 (amended): for every required section title whose cleaned form — the
title with every occurrence of `BAB I `, `BAB II `, `BAB III ` removed, which
coincides with stripping the leading `BAB n ` prefix for the standard titles —
does not occur as a substring of any detected chapter title, the analysis
records, and the ordering phase of the validator surfaces, a
non-auto-correctable error-severity missing-chapter issue naming that
section, irrespective of chapter ordering. -/
theorem missing_section_detection (cfg : Config) (doc : Doc) (ps : List Paragraph)
    (required : String)
    (hps : doc.paragraphsE = .ok ps)
    (hreq : required ∈ cfg.required_sections)
    (habsent : (detectChapters ps).any
      (fun ch => pyIn (requiredClean required) ch.title) = false) :
    (missingChapterIssue required ∈
      (analyze_document_structure cfg doc).missing_sections.getD []) ∧
    missingChapterIssue required ∈ _validate_document_order cfg doc ∧
    (missingChapterIssue required).severity = some "error" ∧
    (missingChapterIssue required).auto_correctable = some false ∧
    (missingChapterIssue required).chapter = some required := by
  have hA : analyze_document_structure cfg doc = analyzeOk cfg (detectChapters ps) := by
    simp [analyze_document_structure, hps]
  have hmem : missingChapterIssue required ∈ missingSections cfg (detectChapters ps) := by
    unfold missingSections
    refine List.mem_filterMap.2 ⟨required, hreq, ?_⟩
    rw [habsent]
    simp
  have hms : (analyze_document_structure cfg doc).missing_sections =
      some (missingSections cfg (detectChapters ps)) := by
    rw [hA]
    rfl
  refine ⟨?_, order_check_mem cfg doc _ _ hms hmem, rfl, rfl, rfl⟩
  rw [hms]
  exact hmem

/-- Witness for C9: `BAB I PENDAHULUAN` is required but `docMissing` only has
chapter `KAJIAN`. -/
theorem missing_section_detection_witness :
    (docMissing.paragraphsE = .ok [mkTextPara "BAB II KAJIAN"]) ∧
    "BAB I PENDAHULUAN" ∈ cfg0.required_sections ∧
    ((detectChapters [mkTextPara "BAB II KAJIAN"]).any
      (fun ch => pyIn (requiredClean "BAB I PENDAHULUAN") ch.title) = false) ∧
    missingChapterIssue "BAB I PENDAHULUAN" ∈ _validate_document_order cfg0 docMissing :=
  ⟨rfl, by decide, by decide,
    (missing_section_detection cfg0 docMissing _ _ rfl (by decide) (by decide)).2.1⟩

/-- C9 counterexample: the code removes EVERY occurrence of `BAB I ` /
`BAB II ` / `BAB III ` from the required title, not just a leading prefix.
For the required title `STUDI BAB I KASUS` (no leading `BAB n ` prefix, so
the claim's stripped form is the title itself) and a document whose only
chapter title is `STUDI KASUS`, the claim's hypothesis holds — the stripped
title occurs in no chapter title — yet the code finds its cleaned form
`STUDI KASUS` and records NO missing-chapter issue. -/
theorem missing_section_mid_occurrence_counterexample :
    specStripLeadingBab "STUDI BAB I KASUS" = "STUDI BAB I KASUS" ∧
    ((analyze_document_structure cfg9 doc9).chapters.any
      (fun ch => pyIn (specStripLeadingBab "STUDI BAB I KASUS") ch.title) = false) ∧
    "STUDI BAB I KASUS" ∈ cfg9.required_sections ∧
    (analyze_document_structure cfg9 doc9).missing_sections = some [] ∧
    ((_validate_document_order cfg9 doc9).filter
      (fun v => v.type == "missing_chapter")) = [] := by
  exact ⟨by decide, by decide, by decide, by decide, by decide⟩

/-! ## C10: the corrected artifact path and the no-correction round trip -/

/-- C10 (amended): whenever the document loads, `apply_corrections` saves an
artifact and returns a non-null `corrected_file_path`; with an empty
corrections list nothing is applied or failed and the saved artifact is the
unmodified input document.  The artifact name gets a `_corrected`-suffixed
stem only when the original stem contains an underscore (id-prefixed
uploads); otherwise the basename is PREFIXED with `corrected_`. -/
theorem apply_corrections_always_saves :
    (∀ (cfg : Config) (path : String) (doc : Doc) (cs : List Correction),
      (apply_corrections cfg path (.ok doc) cs).corrected_file_path.isSome = true) ∧
    (∀ (cfg : Config) (path : String) (doc : Doc),
      apply_corrections cfg path (.ok doc) [] =
        { applied := [], failed := [],
          corrected_file_path := some (_save_corrected_document_path path),
          saved_doc := some doc }) ∧
    _save_corrected_document_path "abc123_thesis.docx" = "temp/abc123_corrected.docx" ∧
    _save_corrected_document_path "thesis.docx" = "temp/corrected_thesis.docx" := by
  refine ⟨?_, ?_, by decide, by decide⟩
  · intro cfg path doc cs
    unfold apply_corrections
    split
    · rename_i e heq
      cases heq
    · rename_i d heq
      cases heq
      rfl
  · intro cfg path doc
    rfl

/-- Witness for C10 at a no-underscore filename and empty corrections. -/
theorem apply_corrections_always_saves_witness :
    (apply_corrections cfg0 "thesis.docx" (.ok docInOrder) []).corrected_file_path.isSome = true ∧
    apply_corrections cfg0 "thesis.docx" (.ok docInOrder) [] =
      { applied := [], failed := [],
        corrected_file_path := some (_save_corrected_document_path "thesis.docx"),
        saved_doc := some docInOrder } :=
  ⟨apply_corrections_always_saves.1 cfg0 "thesis.docx" docInOrder [],
   apply_corrections_always_saves.2.1 cfg0 "thesis.docx" docInOrder⟩

/-- C10 counterexample: for the input `thesis.docx` (no underscore in the
stem) the artifact is written to `temp/corrected_thesis.docx`, whose stem is
`corrected_thesis` — NOT suffixed `_corrected`. -/
theorem corrected_path_prefix_counterexample :
    (apply_corrections cfg0 "thesis.docx" (.ok docInOrder) []).corrected_file_path =
      some "temp/corrected_thesis.docx" ∧
    strEndsWith (splitextRoot (pyBasename "temp/corrected_thesis.docx")) "_corrected" = false := by
  exact ⟨by decide, by decide⟩

end AutoFormact
